import Mathlib

/-!
Verification of the `GeoUtils.raster_tools` module (class `Raster`).

The module is a thin adapter over the external `rasterio` library: it bundles a
dataset handle, a metadata snapshot and (optionally) the pixel payload into one
object, plus geometric operations (crop, reproject, shift, intersection) that
marshal arguments into the external library and rewrap the result.

The shallow embedding below translates the adapter code faithfully, statement
by statement.  The external library (rasterio / shapely / numpy) is not part of
the repository; its calls are modelled by executable definitions that follow
the documented contract of the corresponding routine, and each such definition
says so in its doc comment.  Python exceptions are modelled by `Except PyErr`;
machine floats are modelled by `ℚ` (all the adapter arithmetic is exact).
-/

namespace GeoUtils

/-- Python exception classes that the adapter can raise or propagate. -/
inductive PyErr where
  | typeError
  | valueError (msg : String)
  | attributeError (msg : String)
  | assertionError (msg : String)
  | notImplementedError
  | nameError (missing : String)
  | indexError
  | zeroDivisionError
  deriving DecidableEq, Repr

instance {ε α : Type _} [DecidableEq ε] [DecidableEq α] : DecidableEq (Except ε α) :=
  fun x y =>
    match x, y with
    | .error e, .error f =>
        if h : e = f then .isTrue (h ▸ rfl)
        else .isFalse (fun c => h (Except.error.inj c))
    | .ok a, .ok b =>
        if h : a = b then .isTrue (h ▸ rfl)
        else .isFalse (fun c => h (Except.ok.inj c))
    | .error _, .ok _ => .isFalse Except.noConfusion
    | .ok _, .error _ => .isFalse Except.noConfusion

/-- numpy dtype, identified by its name string. -/
abbrev Dtype := String

/-- A 2-D affine transform `(a, b, c, d, e, f)` in the `affine.Affine`
    coefficient order: `x = a*col + b*row + c`, `y = d*col + e*row + f`. -/
structure Affine where
  a : ℚ
  b : ℚ
  c : ℚ
  d : ℚ
  e : ℚ
  f : ℚ
  deriving DecidableEq, Repr

/-- Coordinate reference system, identified by its EPSG code
    (`rasterio.crs.CRS`). -/
structure CRS where
  code : ℤ
  deriving DecidableEq, Repr

/-- A numpy array: shape, dtype name and the flattened elements in C order. -/
structure NpArray where
  shape : List ℕ
  dtype : Dtype
  elems : List ℚ
  deriving DecidableEq, Repr

/-- `np.expand_dims(data, 0)`: prepend an axis of length 1. -/
def NpArray.expandDims0 (x : NpArray) : NpArray :=
  ⟨1 :: x.shape, x.dtype, x.elems⟩

/-- Element `(k, i, j)` of a 3-D array with band planes of size `h * w`. -/
def NpArray.get3 (x : NpArray) (h w k i j : ℕ) : ℚ :=
  x.elems.getD (k * (h * w) + i * w + j) 0

/-- `np.zeros(shape, dtype)`. -/
def NpArray.zeros (shape : List ℕ) (dtype : Dtype) : NpArray :=
  ⟨shape, dtype, List.replicate (shape.foldl (fun x y => x * y) 1) 0⟩

/-- An array of the given shape filled with a constant value. -/
def NpArray.const (shape : List ℕ) (dtype : Dtype) (v : ℚ) : NpArray :=
  ⟨shape, dtype, List.replicate (shape.foldl (fun x y => x * y) 1) v⟩

/-- The `meta` mapping of a rasterio dataset: the keyword arguments that
    recreate the dataset profile. -/
structure Meta where
  driver : String
  dtype : Dtype
  nodata : Option ℚ
  width : ℕ
  height : ℕ
  count : ℕ
  crs : CRS
  transform : Affine
  deriving DecidableEq, Repr

/-- An open rasterio dataset: profile plus the stored pixel payload
    (shape `[count, height, width]`). -/
structure Dataset where
  count : ℕ
  height : ℕ
  width : ℕ
  dtype : Dtype
  crs : CRS
  transform : Affine
  nodata : Option ℚ
  driver : String
  data : NpArray
  deriving DecidableEq, Repr

/-- `ds.meta` of a rasterio dataset. -/
def Dataset.meta (ds : Dataset) : Meta :=
  ⟨ds.driver, ds.dtype, ds.nodata, ds.width, ds.height, ds.count, ds.crs, ds.transform⟩

/-- `(left, bottom, right, top)` as computed by rasterio `array_bounds`:
    `(left, bottom) = transform * (0, height)` and
    `(right, top) = transform * (width, 0)`. -/
def boundsOf (t : Affine) (height width : ℕ) : ℚ × ℚ × ℚ × ℚ :=
  (t.c + t.b * height, t.f + t.e * height, t.c + t.a * width, t.f)

/-- `ds.bounds`. -/
def Dataset.bounds (ds : Dataset) : ℚ × ℚ × ℚ × ℚ :=
  boundsOf ds.transform ds.height ds.width

/-- `ds.read()` / `ds.read(band)`: the full 3-D payload, or one band
    (1-indexed) as a 2-D array. -/
def Dataset.read (ds : Dataset) (bands : Option ℕ) : NpArray :=
  match bands with
  | none => ds.data
  | some b =>
      ⟨[ds.height, ds.width], ds.data.dtype,
        ((ds.data.elems.drop ((b - 1) * (ds.height * ds.width))).take
          (ds.height * ds.width))⟩

/-- `rasterio.io.MemoryFile`: an in-memory file whose bytes deserialize to one
    dataset.  `mf.open()` returns that dataset. -/
structure MemoryFile where
  content : Dataset
  deriving DecidableEq, Repr

def MemoryFile.open (mf : MemoryFile) : Dataset := mf.content

/-- The `Raster` object state: the two provenance flags, the handle pair
    (memfile, ds), the attribute snapshot copied by `_read_attrs` from the
    `default_attrs` list, and the load state.  The derived attributes
    `dataset_mask`, `indexes`, `name`, `res` and `shape` are recomputable from
    the fields below and are not used by the claims, so they are not mirrored
    as separate fields. -/
structure Raster where
  filename : Option String
  memfile : MemoryFile
  ds : Dataset
  bounds : ℚ × ℚ × ℚ × ℚ
  count : ℕ
  crs : CRS
  driver : String
  dtypes : List Dtype
  height : ℕ
  width : ℕ
  nodata : Option ℚ
  transform : Affine
  data : Option NpArray
  nbands : Option ℕ
  isLoaded : Bool
  matches_disk : Option Bool
  deriving DecidableEq, Repr

/-- `Raster._read_attrs`: copy the dataset attributes onto the object
    (rasterio `dtypes` is one dtype name per band). -/
def Raster.readAttrs (r : Raster) : Raster :=
  { r with
    bounds := r.ds.bounds
    count := r.ds.count
    crs := r.ds.crs
    driver := r.ds.driver
    dtypes := List.replicate r.ds.count r.ds.dtype
    height := r.ds.height
    width := r.ds.width
    nodata := r.ds.nodata
    transform := r.ds.transform }

/-- `Raster.load`: `self.data = self.ds.read(bands)`, then set `nbands` from
    the number of dimensions. -/
def Raster.load (r : Raster) (bands : Option ℕ) : Raster :=
  let d := r.ds.read bands
  { r with
    data := some d
    nbands := some (match d.shape with | [c, _, _] => c | _ => 1) }

/-- The common tail of `Raster.__init__` once `self.filename` and
    `self.memfile` are set: open the dataset, copy the attributes, then either
    load the data (setting `isLoaded` and `matches_disk` to `True`) or leave
    `data`/`nbands` empty with `isLoaded = False` (and `matches_disk` still the
    class default `None`). -/
def Raster.mkCommon (fname : Option String) (mf : MemoryFile) (loadData : Bool)
    (bands : Option ℕ) : Raster :=
  let ds := mf.open
  let base : Raster :=
    Raster.readAttrs
      { filename := fname
        memfile := mf
        ds := ds
        bounds := ds.bounds
        count := 0
        crs := ds.crs
        driver := ""
        dtypes := []
        height := 0
        width := 0
        nodata := none
        transform := ds.transform
        data := none
        nbands := none
        isLoaded := false
        matches_disk := none }
  if loadData then
    { base.load bands with isLoaded := true, matches_disk := some true }
  else
    base

/-- The possible `filename` arguments of `Raster.__init__`: an on-disk path
    (carrying the dataset the file deserializes to — the filesystem is
    external), an in-memory `MemoryFile`, a numpy array, or any other
    unrecognized value. -/
inductive RasterInput where
  | path (fname : String) (content : Dataset)
  | memfile (mf : MemoryFile)
  | ndarray (arr : NpArray)
  | unrecognized
  deriving Repr

/-- `Raster.__init__`.  For inputs that are neither `str` nor `MemoryFile` the
    source evaluates `isinstance(filename, np.array)`; `np.array` is a
    function, not a type, so that call raises `TypeError` — the two
    `ValueError` branches below it are unreachable.  `os.path.abspath` is a
    filesystem detail modelled as the identity. -/
def Raster.init (input : RasterInput) (loadData : Bool) (bands : Option ℕ) :
    Except PyErr Raster :=
  match input with
  | .path fname content => .ok (Raster.mkCommon (some fname) ⟨content⟩ loadData bands)
  | .memfile mf => .ok (Raster.mkCommon none mf loadData bands)
  | .ndarray _ => .error .typeError
  | .unrecognized => .error .typeError

/-- The `transform` argument of `Raster.from_array`: an `affine.Affine`, a
    6-tuple, or anything else (rejected). -/
inductive TransformArg where
  | affine (t : Affine)
  | tuple6 (t0 t1 t2 t3 t4 t5 : ℚ)
  | bad
  deriving Repr

/-- The transform validation at the top of `Raster.from_array`. -/
def TransformArg.resolve : TransformArg → Except PyErr Affine
  | .affine t => .ok t
  | .tuple6 t0 t1 t2 t3 t4 t5 => .ok ⟨t0, t1, t2, t3, t4, t5⟩
  | .bad => .error (.valueError "transform argument needs to be Affine or tuple.")

/-- The `crs` argument: a CRS object or an EPSG integer
    (`CRS.from_epsg` / `CRS.from_user_input`). -/
inductive CrsArg where
  | crs (c : CRS)
  | epsg (n : ℤ)
  deriving Repr

def CrsArg.resolve : CrsArg → CRS
  | .crs c => c
  | .epsg n => ⟨n⟩

/-- The tail of `from_array` after validation and band expansion: write the
    array into a fresh `MemoryFile` dataset with the array dtype and `GTiff`
    driver, then run `__init__` on it.  A 1-D input still has fewer than 3
    axes after expansion, so the source accesses `data.shape[2]` out of range
    (`IndexError`); an input with more than 3 axes reaches the dataset write,
    which the external library rejects. -/
def Raster.fromArrayChecked (data : NpArray) (t : Affine) (c : CRS)
    (nodata : Option ℚ) : Except PyErr Raster :=
  match data.shape with
  | [cnt, h, w] =>
      Raster.init (.memfile ⟨⟨cnt, h, w, data.dtype, c, t, nodata, "GTiff", data⟩⟩)
        true none
  | _ =>
      if data.shape.length < 3 then .error .indexError
      else .error (.valueError "Source shape is inconsistent with given indexes")

/-- `Raster.from_array`: validate the transform, resolve the CRS, expand a
    2-D array with a band axis, then package the array into a fresh in-memory
    dataset (with the default `load_data=True`). -/
def Raster.from_array (data0 : NpArray) (transform : TransformArg) (crs : CrsArg)
    (nodata : Option ℚ) : Except PyErr Raster :=
  match transform.resolve with
  | .error ex => .error ex
  | .ok t =>
      Raster.fromArrayChecked
        (if data0.shape.length < 3 then data0.expandDims0 else data0)
        t crs.resolve nodata

/-- The dataset handle and the attribute snapshot agree: every copied
    attribute equals what `_read_attrs` would recompute from `self.ds`, and
    the open dataset is the one backed by `self.memfile`. -/
def Raster.consistent (r : Raster) : Prop :=
  r.ds = r.memfile.open ∧
  r.bounds = r.ds.bounds ∧
  r.count = r.ds.count ∧
  r.crs = r.ds.crs ∧
  r.driver = r.ds.driver ∧
  r.dtypes = List.replicate r.ds.count r.ds.dtype ∧
  r.height = r.ds.height ∧
  r.width = r.ds.width ∧
  r.nodata = r.ds.nodata ∧
  r.transform = r.ds.transform

instance (r : Raster) : Decidable r.consistent := by
  unfold Raster.consistent
  infer_instance

/-- The state produced by `Raster._update` on success: a fresh memory file
    holding a dataset built from the metadata mapping and the written image,
    the dataset handle swapped to it, the attributes re-read, the
    `matches_disk` flag cleared, and — when the object was loaded — the data
    re-read from the new dataset. -/
def Raster.applyUpdate (r : Raster) (img : NpArray) (m : Meta) : Raster :=
  let ds : Dataset :=
    ⟨m.count, m.height, m.width, m.dtype, m.crs, m.transform, m.nodata, m.driver, img⟩
  let r2 := Raster.readAttrs { r with memfile := ⟨ds⟩, ds := ds }
  let r2 := { r2 with matches_disk := some false }
  if r.isLoaded then r2.load none else r2

/-- The write step of `_update` once the image to write is resolved: the
    external dataset write rejects an image whose shape differs from the
    metadata dimensions. -/
def Raster.updateResolved (r : Raster) (img : NpArray) (m : Meta) :
    Except PyErr Raster :=
  if img.shape = [m.count, m.height, m.width] then .ok (r.applyUpdate img m)
  else .error (.valueError "Source shape is inconsistent with dataset dimensions")

/-- `Raster._update`.  An omitted image falls back to `self.data` (`None`
    makes the dataset write raise).  When `metadata` is omitted the source
    reads `self.metadata`, an attribute that does not exist (`_read_attrs`
    copies `default_attrs`, which has no such entry), so Python raises
    `AttributeError`. -/
def Raster.update (r : Raster) (imgdata : Option NpArray) (metadata : Option Meta) :
    Except PyErr Raster :=
  match metadata with
  | none => .error (.attributeError "Raster object has no attribute metadata")
  | some m =>
      match imgdata, r.data with
      | some img, _ => r.updateResolved img m
      | none, some img => r.updateResolved img m
      | none, none => .error .typeError

/-- Floor of a rational, computed with Euclidean machinery (`Int.fdiv` rounds
    toward negative infinity; a `Rat` denominator is positive). -/
def ratFloor (q : ℚ) : ℤ := Int.fdiv q.num q.den

/-- Ceiling of a rational. -/
def ratCeil (q : ℚ) : ℤ := -Int.fdiv (-q.num) q.den

/-- Python `int()` truncation toward zero. -/
def pyInt (q : ℚ) : ℤ := Int.tdiv q.num q.den

/-- Determinant of the linear part of an affine transform. -/
def Affine.det (t : Affine) : ℚ := t.a * t.e - t.b * t.d

/-- Fractional column index of a world point under the inverse transform. -/
def Affine.invCol (t : Affine) (x y : ℚ) : ℚ :=
  (t.e * (x - t.c) - t.b * (y - t.f)) / t.det

/-- Fractional row index of a world point under the inverse transform. -/
def Affine.invRow (t : Affine) (x y : ℚ) : ℚ :=
  (t.a * (y - t.f) - t.d * (x - t.c)) / t.det

/-- Concatenation of a list of lists (row-major flattening helper). -/
def concatAll : List (List ℚ) → List ℚ
  | [] => []
  | l :: ls => l ++ concatAll ls

/-- Flattened `[a, b, c]`-shaped table of `f` in C order. -/
def tabulate3 (a b c : ℕ) (f : ℕ → ℕ → ℕ → ℚ) : List ℚ :=
  concatAll ((List.range a).map (fun k =>
    concatAll ((List.range b).map (fun i =>
      (List.range c).map (fun j => f k i j)))))

/-- Windowed read of a dataset: band `k`, rows `rowOff ..`, columns
    `colOff ..`; positions outside the stored grid fill with 0. -/
def Dataset.windowRead (ds : Dataset) (rowOff colOff : ℤ) (h w : ℕ) : NpArray :=
  ⟨[ds.count, h, w], ds.data.dtype,
    tabulate3 ds.count h w (fun k i j =>
      let ri : ℤ := rowOff + i
      let ci : ℤ := colOff + j
      if 0 ≤ ri ∧ ri < (ds.height : ℤ) ∧ 0 ≤ ci ∧ ci < (ds.width : ℤ) then
        ds.data.get3 ds.height ds.width k ri.toNat ci.toNat
      else 0)⟩

/-- Modelled from the documented contract of `rasterio.mask.mask(…, crop=True,
    all_touched=True)` on a rectangle `[xmin, xmax] × [ymin, ymax]`: the output
    window is the smallest pixel-aligned window of the dataset covering the
    rectangle (offsets floored, ends ceiled, clipped to the dataset grid), the
    output transform is the dataset transform composed with the whole-pixel
    translation to that window, and a rectangle that does not overlap the grid
    raises `ValueError`.  The per-pixel masking of edge slivers does not affect
    the window or the transform. -/
def maskCrop (ds : Dataset) (xmin ymin xmax ymax : ℚ) :
    Except PyErr (NpArray × Affine) :=
  let t := ds.transform
  let corners : List (ℚ × ℚ) := [(xmin, ymin), (xmax, ymin), (xmax, ymax), (xmin, ymax)]
  let cols := corners.map (fun p => t.invCol p.1 p.2)
  let rows := corners.map (fun p => t.invRow p.1 p.2)
  let colLo : ℤ := ratFloor (cols.foldl min (t.invCol xmin ymin))
  let colHi : ℤ := ratCeil (cols.foldl max (t.invCol xmin ymin))
  let rowLo : ℤ := ratFloor (rows.foldl min (t.invRow xmin ymin))
  let rowHi : ℤ := ratCeil (rows.foldl max (t.invRow xmin ymin))
  let colOff := max 0 colLo
  let rowOff := max 0 rowLo
  let colEnd := min (ds.width : ℤ) colHi
  let rowEnd := min (ds.height : ℤ) rowHi
  if colOff < colEnd ∧ rowOff < rowEnd then
    let w := (colEnd - colOff).toNat
    let h := (rowEnd - rowOff).toNat
    .ok (ds.windowRead rowOff colOff h w,
      ⟨t.a, t.b, t.c + t.a * colOff + t.b * rowOff,
       t.d, t.e, t.f + t.d * colOff + t.e * rowOff⟩)
  else
    .error (.valueError "Input shapes do not overlap raster.")

/-- Modelled from the documented contract of the default output grid that
    `rasterio.warp` computes when only the destination shape is known: an
    affine covering the source extent with the destination dimensions.  The
    coordinate-system conversion itself is external mathematics outside the
    module (spec, non-goals). -/
def calcDefaultTransform (srcT : Affine) (srcH srcW dstH dstW : ℕ) : Affine :=
  let left := srcT.c + srcT.b * srcH
  let bottom := srcT.f + srcT.e * srcH
  let right := srcT.c + srcT.a * srcW
  let top := srcT.f
  ⟨(right - left) / dstW, 0, left, 0, (bottom - top) / dstH, top⟩

/-- Nearest-neighbour resampling of `src` onto the grid of `dest`
    (the `Resampling.nearest` kernel used throughout the adapter). -/
def warpPixels (src : NpArray) (srcH srcW : ℕ) (srcT : Affine) (dest : NpArray)
    (dstT : Affine) : NpArray :=
  match dest.shape with
  | [cnt, h, w] =>
      ⟨[cnt, h, w], dest.dtype,
        tabulate3 cnt h w (fun k i j =>
          let x := dstT.c + dstT.a * ((j : ℚ) + 1 / 2) + dstT.b * ((i : ℚ) + 1 / 2)
          let y := dstT.f + dstT.d * ((j : ℚ) + 1 / 2) + dstT.e * ((i : ℚ) + 1 / 2)
          let sc := ratFloor (srcT.invCol x y)
          let sr := ratFloor (srcT.invRow x y)
          if 0 ≤ sr ∧ sr < (srcH : ℤ) ∧ 0 ≤ sc ∧ sc < (srcW : ℤ) then
            src.get3 srcH srcW k sr.toNat sc.toNat
          else 0)⟩
  | _ => dest

/-- Modelled from the documented contract of `rasterio.warp.reproject`: pick
    the output grid (the given destination and/or transform, a grid derived
    from `dst_resolution`, or the default grid), resample the source onto it,
    and return the pair `(destination, destination transform)`. -/
def rioWarpReproject (src : NpArray) (srcT : Affine) (_srcCrs _dstCrs : CRS)
    (destination : Option NpArray) (dstTransform : Option Affine)
    (dstResolution : Option (ℚ × ℚ)) : NpArray × Affine :=
  let cnt := src.shape.getD 0 1
  let srcH := src.shape.getD 1 0
  let srcW := src.shape.getD 2 0
  match destination with
  | some dest =>
      let dstT := dstTransform.getD
        (calcDefaultTransform srcT srcH srcW (dest.shape.getD 1 0) (dest.shape.getD 2 0))
      (warpPixels src srcH srcW srcT dest dstT, dstT)
  | none =>
      match dstResolution with
      | some (xr, yr) =>
          let left := srcT.c + srcT.b * srcH
          let bottom := srcT.f + srcT.e * srcH
          let right := srcT.c + srcT.a * srcW
          let top := srcT.f
          let w := (ratCeil ((right - left) / xr)).toNat
          let h := (ratCeil ((top - bottom) / yr)).toNat
          let dstT := dstTransform.getD ⟨xr, 0, left, 0, -yr, top⟩
          (warpPixels src srcH srcW srcT (NpArray.zeros [cnt, h, w] src.dtype) dstT, dstT)
      | none =>
          let dstT := dstTransform.getD srcT
          (warpPixels src srcH srcW srcT (NpArray.zeros [cnt, srcH, srcW] src.dtype) dstT,
            dstT)

/-- The `cropGeom` argument of `Raster.crop`: another raster (cropped to its
    bounds), a vector (not implemented by the source), a coordinate list
    `[xmin, ymin, xmax, ymax]`, or anything else (rejected). -/
inductive CropGeom where
  | raster (other : Raster)
  | vector
  | coords (xmin ymin xmax ymax : ℚ)
  | invalid

/-- `Raster.crop`.  The mode assertion runs first; then the geometry is
    dispatched; `match_pixel` delegates to the polygon mask, `match_extent`
    builds a window from the requested bounds, truncates its dimensions with
    `int()`, and resamples onto the exact-extent grid.  In the `match_extent`
    branch the source reads `self.data.dtype` in both the loaded and the
    unloaded branch, so an absent payload raises `AttributeError`; a zero-size
    window makes `rio.transform.from_bounds` divide by zero. -/
def Raster.crop (r : Raster) (cropGeom : CropGeom) (mode : String) :
    Except PyErr Raster :=
  if mode = "match_extent" ∨ mode = "match_pixel" then
    match (match cropGeom with
           | .raster other => Except.ok other.bounds
           | .vector => Except.error PyErr.notImplementedError
           | .coords x0 y0 x1 y1 => Except.ok (x0, y0, x1, y1)
           | .invalid =>
               Except.error (PyErr.valueError
                 "cropGeom must be a Raster, Vector, or list of coordinates.")) with
    | .error ex => .error ex
    | .ok (xmin, ymin, xmax, ymax) =>
        if mode = "match_pixel" then
          match maskCrop r.ds xmin ymin xmax ymax with
          | .error ex => .error ex
          | .ok (cropImg, tfm) =>
              r.update (some cropImg) (some { r.ds.meta with
                height := cropImg.shape.getD 1 0
                width := cropImg.shape.getD 2 0
                transform := tfm })
        else
          let colOff := r.transform.invCol xmin ymax
          let rowOff := r.transform.invRow xmin ymax
          let winW := r.transform.invCol xmax ymin - colOff
          let winH := r.transform.invRow xmax ymin - rowOff
          let newH := (pyInt winH).toNat
          let newW := (pyInt winW).toNat
          if newH = 0 ∨ newW = 0 then .error .zeroDivisionError
          else
            match r.data with
            | none => .error (.attributeError "NoneType object has no attribute dtype")
            | some d =>
                let newTfm : Affine :=
                  ⟨(xmax - xmin) / newW, 0, xmin, 0, (ymin - ymax) / newH, ymax⟩
                let bandsN := if r.isLoaded then r.nbands.getD 0 else r.count
                let newImg := NpArray.zeros [bandsN, newH, newW] d.dtype
                let warped :=
                  rioWarpReproject d r.transform r.crs r.crs (some newImg)
                    (some newTfm) none
                r.update (some warped.1) (some { r.ds.meta with
                  height := newH, width := newW, transform := warped.2 })
  else
    .error (.assertionError "mode must be one of match_pixel, match_extent")

/-- `Raster.shift`: take the six coefficients of the transform attribute, add
    the offsets to the two translation terms, put the new transform into the
    dataset metadata mapping, and run `_update` (image omitted, so the current
    payload is rewritten). -/
def Raster.shift (r : Raster) (xoff yoff : ℚ) : Except PyErr Raster :=
  let t := r.transform
  let m := { r.ds.meta with
    transform := Affine.mk t.a t.b (t.c + xoff) t.d t.e (t.f + yoff) }
  r.update none (some m)

/-- The `dst_res` argument of `Raster.reproject`: one value or a pair. -/
inductive DstRes where
  | single (v : ℚ)
  | pair (xres yres : ℚ)
  deriving Repr

/-- `Raster.reproject`.  The conflicting-arguments check runs before anything
    else.  The default dtype line indexes `self.dtypes[0]` (IndexError on a
    0-band raster; the value is never used afterwards).  The `dst_bounds`
    branch reads the names `opt_npx` and `opt_res`, which are defined nowhere
    in the source, so it raises `NameError`.  With `dst_size` the destination
    is `np.ones((count, ny, nx))` (float64); the warp is delegated, and the
    result is rewrapped with `Raster.from_array` (hence a freshly loaded,
    in-memory raster). -/
def Raster.reproject (r : Raster) (dstCrsArg : CrsArg) (dstSize : Option (ℕ × ℕ))
    (dstBounds : Option (ℚ × ℚ × ℚ × ℚ)) (dstRes : Option DstRes)
    (nodata : Option ℚ) (dtype : Option Dtype) : Except PyErr Raster :=
  if dstSize.isSome ∧ dstRes.isSome then
    .error (.valueError "dst_size and dst_res both specified. Specify only one.")
  else
    match (match dtype with
           | some dt => some dt
           | none => r.dtypes.head?) with
    | none => .error .indexError
    | some _dt =>
        let dstCrs := dstCrsArg.resolve
        if dstBounds.isSome then .error (.nameError "opt_npx")
        else
          match r.data with
          | none => .error .typeError
          | some srcData =>
              let res2 := dstRes.map (fun ρ =>
                match ρ with
                | .single v => (v, v)
                | .pair x y => (x, y))
              let dest := dstSize.map (fun sz =>
                NpArray.const [r.count, sz.2, sz.1] "float64" 1)
              let warped :=
                rioWarpReproject srcData r.transform r.crs dstCrs dest none res2
              Raster.from_array warped.1 (.affine warped.2) (.crs dstCrs) nodata

/-- The `blank_value` argument of `Raster.save`: omitted, numeric, or a value
    of any other type. -/
inductive BlankValue where
  | noneV
  | num (v : ℚ)
  | nonNumeric
  deriving DecidableEq, Repr

/-- A geo-referenced file written to disk by `Raster.save`. -/
structure SavedFile where
  filename : String
  driver : String
  height : ℕ
  width : ℕ
  count : ℕ
  dtype : Dtype
  crs : CRS
  transform : Affine
  nodata : Option ℚ
  data : NpArray
  deriving DecidableEq, Repr

/-- What a call to `Raster.save` returns when it does not raise: either a file
    was written, or the function returned the `AttributeError` *object*
    (the source says `return AttributeError(...)`, not `raise`). -/
inductive SaveOutcome where
  | written (f : SavedFile)
  | returnedAttributeError
  deriving DecidableEq, Repr

/-- `Raster.save`.  The first statement evaluates `self.data.dtype` whenever
    `dtype` is omitted, so an unloaded raster raises `AttributeError` there;
    if `dtype` is supplied, the no-data/no-blank check is reached and its
    `return AttributeError(...)` returns the exception object without raising.
    The file is written with `dtype=save_data.dtype` (the computed `dtype`
    variable is never used); a blank payload is float64 `np.zeros` filled with
    the blank value. -/
def Raster.save (r : Raster) (filename : String) (driver : String)
    (dtype : Option Dtype) (blankValue : BlankValue) : Except PyErr SaveOutcome :=
  match (match dtype, r.data with
         | none, none =>
             Except.error (PyErr.attributeError "NoneType object has no attribute dtype")
         | none, some d => Except.ok d.dtype
         | some t, _ => Except.ok t) with
  | .error ex => .error ex
  | .ok _dt =>
      if r.data = none ∧ blankValue = .noneV then
        .ok .returnedAttributeError
      else
        match (match blankValue with
               | .num v =>
                   Except.ok (NpArray.const [r.ds.count, r.ds.height, r.ds.width]
                     "float64" v)
               | .nonNumeric =>
                   Except.error (PyErr.valueError
                     "blank_values must be one of int, float (or None).")
               | .noneV => Except.ok (r.data.getD (NpArray.zeros [] ""))) with
        | .error ex => .error ex
        | .ok saveData =>
            .ok (.written ⟨filename, driver, r.ds.height, r.ds.width, r.ds.count,
              saveData.dtype, r.ds.crs, r.ds.transform, r.ds.nodata, saveData⟩)

/-- Modelled from the spec: `GeoUtils.proj_tools.bounds2poly` (a repository
    module not present under `src/`) converts a `(left, bottom, right, top)`
    bounds tuple into the axis-aligned envelope polygon of that extent.  Such
    a polygon is determined by its corner coordinates. -/
structure PolyRect where
  xmin : ℚ
  ymin : ℚ
  xmax : ℚ
  ymax : ℚ
  deriving DecidableEq, Repr

/-- Modelled from the spec: `bounds2poly` builds the envelope polygon of a
    bounds tuple. -/
def bounds2poly (b : ℚ × ℚ × ℚ × ℚ) : PolyRect :=
  ⟨b.1, b.2.1, b.2.2.1, b.2.2.2⟩

/-- Intersection of two axis-aligned envelopes (the shapely `intersection` of
    two such polygons; a degenerate result has zero area). -/
def PolyRect.inter (p q : PolyRect) : PolyRect :=
  ⟨max p.xmin q.xmin, max p.ymin q.ymin, min p.xmax q.xmax, min p.ymax q.ymax⟩

/-- shapely `area` of an axis-aligned envelope (0 when degenerate or empty). -/
def PolyRect.area (p : PolyRect) : ℚ :=
  max 0 (p.xmax - p.xmin) * max 0 (p.ymax - p.ymin)

/-- shapely `envelope.bounds` of an axis-aligned envelope. -/
def PolyRect.envelopeBounds (p : PolyRect) : ℚ × ℚ × ℚ × ℚ :=
  (p.xmin, p.ymin, p.xmax, p.ymax)

/-- The value returned by `Raster.intersection`: an extent tuple, or — after
    the void-intersection warning — the integer `0`. -/
inductive IntersectionResult where
  | extent (xmin ymin xmax ymax : ℚ)
  | voidWarnedZero
  deriving DecidableEq, Repr

/-- `Raster.intersection`: build the two envelope polygons from the rasters
    bounds, intersect them, take the envelope bounds, and return `0` behind a
    warning when the intersection area is zero.  (The projection comparison in
    the source is hard-wired to `same_proj = True`.) -/
def Raster.intersection (r rst : Raster) : IntersectionResult :=
  let poly1 := bounds2poly r.bounds
  let poly2 := bounds2poly rst.bounds
  let intersect := poly1.inter poly2
  let extent := intersect.envelopeBounds
  if intersect.area = 0 then
    .voidWarnedZero
  else
    .extent extent.1 extent.2.1 extent.2.2.1 extent.2.2.2

/-! ### General lemmas about the operations -/

/-- The fields of a raster freshly constructed with `load_data=True`. -/
lemma mkCommon_loaded (fname : Option String) (mf : MemoryFile) (b : Option ℕ) :
    (Raster.mkCommon fname mf true b).matches_disk = some true ∧
    (Raster.mkCommon fname mf true b).filename = fname ∧
    (Raster.mkCommon fname mf true b).isLoaded = true ∧
    (Raster.mkCommon fname mf true b).consistent ∧
    (Raster.mkCommon fname mf true b).data = some (mf.open.read b) ∧
    (Raster.mkCommon fname mf true b).ds = mf.open ∧
    (Raster.mkCommon fname mf true b).transform = mf.open.transform ∧
    (Raster.mkCommon fname mf true b).crs = mf.open.crs ∧
    (Raster.mkCommon fname mf true b).count = mf.open.count ∧
    (Raster.mkCommon fname mf true b).height = mf.open.height ∧
    (Raster.mkCommon fname mf true b).width = mf.open.width :=
  ⟨rfl, rfl, rfl, ⟨rfl, rfl, rfl, rfl, rfl, rfl, rfl, rfl, rfl, rfl⟩,
    rfl, rfl, rfl, rfl, rfl, rfl, rfl⟩

/-- A successful `fromArrayChecked` is a `__init__` run on a fresh memory
    file with `load_data=True`. -/
lemma fromArrayChecked_ok (a : NpArray) (t : Affine) (c : CRS) (n : Option ℚ)
    (r : Raster) (h : Raster.fromArrayChecked a t c n = .ok r) :
    ∃ mf : MemoryFile, r = Raster.mkCommon none mf true none := by
  unfold Raster.fromArrayChecked at h
  split at h
  · exact ⟨_, (Except.ok.inj h).symm⟩
  · split at h <;> exact (Except.noConfusion h)

/-- On a 3-D-shaped array `fromArrayChecked` succeeds and its result is
    explicit. -/
lemma fromArrayChecked_eq (a : NpArray) (t : Affine) (c : CRS) (n : Option ℚ)
    (cnt h w : ℕ) (hs : a.shape = [cnt, h, w]) :
    Raster.fromArrayChecked a t c n =
      .ok (Raster.mkCommon none ⟨⟨cnt, h, w, a.dtype, c, t, n, "GTiff", a⟩⟩ true none) := by
  obtain ⟨sh, dt, el⟩ := a
  simp only at hs
  subst hs
  rfl

/-- `from_array` with a well-formed transform argument delegates to
    `fromArrayChecked` on the (possibly band-expanded) array. -/
lemma from_array_affine (a : NpArray) (t : Affine) (c : CrsArg) (n : Option ℚ) :
    Raster.from_array a (.affine t) c n =
      Raster.fromArrayChecked
        (if a.shape.length < 3 then a.expandDims0 else a) t c.resolve n := rfl

/-- A successful `from_array` is a `__init__` run on a fresh memory file with
    `load_data=True`. -/
lemma from_array_ok (a : NpArray) (t : TransformArg) (c : CrsArg) (n : Option ℚ)
    (r : Raster) (h : Raster.from_array a t c n = .ok r) :
    ∃ mf : MemoryFile, r = Raster.mkCommon none mf true none := by
  unfold Raster.from_array at h
  split at h
  · exact (Except.noConfusion h)
  · exact fromArrayChecked_ok _ _ _ _ _ h

/-- Every raster produced by `from_array` carries the fresh-construction
    flags and a coherent handle/attribute pair. -/
lemma from_array_flags (a : NpArray) (t : TransformArg) (c : CrsArg) (n : Option ℚ)
    (r : Raster) (h : Raster.from_array a t c n = .ok r) :
    r.matches_disk = some true ∧ r.filename = none ∧ r.consistent := by
  obtain ⟨mf, rfl⟩ := from_array_ok a t c n r h
  exact ⟨(mkCommon_loaded none mf none).1, (mkCommon_loaded none mf none).2.1,
    (mkCommon_loaded none mf none).2.2.2.1⟩

/-- Field values of the state `_update` builds on success. -/
lemma applyUpdate_fields (r : Raster) (img : NpArray) (m : Meta) :
    (r.applyUpdate img m).matches_disk = some false ∧
    (r.applyUpdate img m).consistent ∧
    (r.applyUpdate img m).transform = m.transform ∧
    (r.applyUpdate img m).crs = m.crs ∧
    (r.applyUpdate img m).count = m.count ∧
    (r.applyUpdate img m).height = m.height ∧
    (r.applyUpdate img m).width = m.width ∧
    (r.applyUpdate img m).nodata = m.nodata ∧
    (r.applyUpdate img m).driver = m.driver ∧
    (r.applyUpdate img m).dtypes = List.replicate m.count m.dtype ∧
    (r.applyUpdate img m).bounds = boundsOf m.transform m.height m.width ∧
    (r.applyUpdate img m).filename = r.filename ∧
    (r.applyUpdate img m).data = (if r.isLoaded then some img else r.data) := by
  unfold Raster.applyUpdate
  cases hL : r.isLoaded <;>
    simp [hL, Raster.load, Raster.readAttrs, Raster.consistent, Dataset.read,
      Dataset.bounds, MemoryFile.open]

/-- The transform of the state `_update` builds is the metadata transform. -/
lemma applyUpdate_transform (r : Raster) (img : NpArray) (m : Meta) :
    (r.applyUpdate img m).transform = m.transform :=
  (applyUpdate_fields r img m).2.2.1

/-- Inversion of a successful write step. -/
lemma updateResolved_ok (r : Raster) (i : NpArray) (m : Meta) (r2 : Raster)
    (h : r.updateResolved i m = .ok r2) :
    i.shape = [m.count, m.height, m.width] ∧ r2 = r.applyUpdate i m := by
  unfold Raster.updateResolved at h
  split at h
  · exact ⟨by assumption, (Except.ok.inj h).symm⟩
  · exact (Except.noConfusion h)

/-- Inversion of a successful `_update` call with explicit metadata. -/
lemma update_ok (r : Raster) (img : Option NpArray) (m : Meta) (r2 : Raster)
    (h : r.update img (some m) = .ok r2) :
    ∃ i : NpArray, i.shape = [m.count, m.height, m.width] ∧ r2 = r.applyUpdate i m ∧
      (img = some i ∨ (img = none ∧ r.data = some i)) := by
  unfold Raster.update at h
  cases img with
  | some x =>
      obtain ⟨h1, h2⟩ := updateResolved_ok r x m r2 h
      exact ⟨x, h1, h2, Or.inl rfl⟩
  | none =>
      cases hd : r.data with
      | none => rw [hd] at h; exact (Except.noConfusion h)
      | some x =>
          rw [hd] at h
          obtain ⟨h1, h2⟩ := updateResolved_ok r x m r2 h
          exact ⟨x, h1, h2, Or.inr ⟨rfl, rfl⟩⟩

/-- Every successful `crop` went through `_update` with an explicit image and
    explicit metadata. -/
lemma crop_ok_update (r : Raster) (g : CropGeom) (m : String) (r2 : Raster)
    (h : r.crop g m = .ok r2) :
    ∃ (img : NpArray) (meta : Meta), r.update (some img) (some meta) = .ok r2 := by
  simp only [Raster.crop] at h
  repeat' split at h
  all_goals first
    | exact (Except.noConfusion h)
    | exact ⟨_, _, h⟩

/-- The transform returned by the polygon-mask crop is the dataset transform
    composed with a whole-pixel translation. -/
lemma maskCrop_ok_transform (ds : Dataset) (x0 y0 x1 y1 : ℚ) (img : NpArray)
    (tfm : Affine) (h : maskCrop ds x0 y0 x1 y1 = .ok (img, tfm)) :
    ∃ i j : ℤ,
      tfm = ⟨ds.transform.a, ds.transform.b,
             ds.transform.c + ds.transform.a * i + ds.transform.b * j,
             ds.transform.d, ds.transform.e,
             ds.transform.f + ds.transform.d * i + ds.transform.e * j⟩ := by
  simp only [maskCrop] at h
  split at h
  · exact ⟨_, _, (congrArg Prod.snd (Except.ok.inj h)).symm⟩
  · exact (Except.noConfusion h)

/-- Every successful `reproject` ends by rewrapping the warp output with
    `from_array`. -/
lemma reproject_ok_from_array (r : Raster) (dc : CrsArg) (sz : Option (ℕ × ℕ))
    (b : Option (ℚ × ℚ × ℚ × ℚ)) (ρ : Option DstRes) (n : Option ℚ)
    (dt : Option Dtype) (r2 : Raster)
    (h : r.reproject dc sz b ρ n dt = .ok r2) :
    ∃ (a : NpArray) (t : Affine) (c : CRS),
      Raster.from_array a (.affine t) (.crs c) n = .ok r2 := by
  simp only [Raster.reproject] at h
  repeat' split at h
  all_goals first
    | exact (Except.noConfusion h)
    | exact ⟨_, _, _, h⟩

/-! ### Concrete fixtures used by the witnesses -/

/-- A 1-band 2×2 float64 payload. -/
def arr0 : NpArray := ⟨[1, 2, 2], "float64", [1, 2, 3, 4]⟩

/-- A 2-D (bandless) 2×3 payload. -/
def arr2d : NpArray := ⟨[2, 3], "uint8", [1, 2, 3, 4, 5, 6]⟩

/-- A 30 m grid anchored at (478000, 3108140). -/
def t0 : Affine := ⟨30, 0, 478000, 0, -30, 3108140⟩

def crs0 : CRS := ⟨32645⟩

def ds0 : Dataset := ⟨1, 2, 2, "float64", crs0, t0, none, "GTiff", arr0⟩

def mf0 : MemoryFile := ⟨ds0⟩

/-- The raster `Raster(mf0)` (data loaded). -/
def r0 : Raster := Raster.mkCommon none mf0 true none

/-- The raster `Raster(mf0, load_data=False)`. -/
def r0unloaded : Raster := Raster.mkCommon none mf0 false none

/-- The raster produced by cropping `r0` to an interior box in `match_pixel`
    mode. -/
def cropR0 : Raster :=
  (r0.crop (.coords 478010 3108090 478050 3108130) "match_pixel").toOption.getD r0

/-- The raster produced by `r0.shift(5, 7)`. -/
def shiftR0 : Raster := (r0.shift 5 7).toOption.getD r0

/-- The raster returned by `r0.reproject(4326)`. -/
def reprojR0 : Raster :=
  (r0.reproject (.epsg 4326) none none none none none).toOption.getD r0

/-- The raster produced by `from_array` on the 2-D payload. -/
def r2d : Raster :=
  (Raster.from_array arr2d (.affine t0) (.crs crs0) none).toOption.getD r0

/-- A raster whose extent is disjoint from the extent of `r0`. -/
def rFar : Raster :=
  Raster.mkCommon none ⟨⟨1, 2, 2, "float64", crs0, ⟨30, 0, 600000, 0, -30, 3108140⟩,
    none, "GTiff", arr0⟩⟩ true none

/-! ### Claims -/

/-- C2: the claim says that `save` on a raster without loaded pixel data and
    with `blank_value` left as `None` raises immediately.  The source instead
    *returns* the `AttributeError` object (`return AttributeError(...)`) when
    that validation fires: with an explicit `dtype` the call completes
    normally, raising nothing and writing nothing.  (Only when `dtype` is also
    omitted does an exception appear, and then it is the accidental attribute
    access `self.data.dtype` on `None` in the preceding line, not the intended
    validation.)  This theorem evaluates the code at the failing input. -/
theorem C2_save_returns_error_object :
    r0unloaded.save "out.tif" "GTiff" (some "float32") .noneV =
      .ok .returnedAttributeError ∧
    r0unloaded.save "out.tif" "GTiff" none .noneV =
      .error (.attributeError "NoneType object has no attribute dtype") :=
  ⟨rfl, rfl⟩

/-- C4: calling `reproject` with both `dst_size` and `dst_res` specified
    raises `ValueError` immediately — the check is the first statement, so the
    error comes back for every raster state (even an unloaded one), before any
    work is delegated to the warp routine. -/
theorem C4_reproject_size_res_conflict (r : Raster) (dc : CrsArg) (sz : ℕ × ℕ)
    (b : Option (ℚ × ℚ × ℚ × ℚ)) (ρ : DstRes) (n : Option ℚ) (dt : Option Dtype) :
    r.reproject dc (some sz) b (some ρ) n dt =
      .error (.valueError "dst_size and dst_res both specified. Specify only one.") :=
  rfl

/-- C6: the claim says an unrecognized constructor argument raises a
    `ValueError` identifying it.  The source guard is
    `isinstance(filename, np.array)`; `np.array` is a function, not a type, so
    Python raises `TypeError` from `isinstance` itself for *every* input that
    is neither `str` nor `MemoryFile`, and both `ValueError` branches are
    unreachable.  This theorem evaluates the constructor at two such inputs. -/
theorem C6_constructor_typeerror :
    Raster.init (.ndarray arr0) true none = .error .typeError ∧
    Raster.init .unrecognized true none = .error .typeError :=
  ⟨rfl, rfl⟩

/-- C10: a raster constructed with `load_data=True` from a `MemoryFile` ends
    construction with `matches_disk = True` although `filename` is `None` and
    no on-disk file exists; every raster produced by `from_array` (which
    rewraps a fresh `MemoryFile`) is in the same state. -/
theorem C10_inmemory_matches_disk :
    (∀ (mf : MemoryFile) (b : Option ℕ), ∃ r : Raster,
        Raster.init (.memfile mf) true b = .ok r ∧
        r.matches_disk = some true ∧ r.filename = none) ∧
    (∀ (a : NpArray) (t : TransformArg) (c : CrsArg) (n : Option ℚ) (r : Raster),
        Raster.from_array a t c n = .ok r →
        r.matches_disk = some true ∧ r.filename = none) := by
  constructor
  · intro mf b
    exact ⟨Raster.mkCommon none mf true b, rfl,
      (mkCommon_loaded none mf b).1, (mkCommon_loaded none mf b).2.1⟩
  · intro a t c n r h
    obtain ⟨h1, h2, _⟩ := from_array_flags a t c n r h
    exact ⟨h1, h2⟩

theorem C10_inmemory_matches_disk_witness :
    Raster.from_array arr0 (.affine t0) (.crs crs0) none = .ok r0 ∧
    r0.matches_disk = some true ∧ r0.filename = none :=
  ⟨rfl, C10_inmemory_matches_disk.2 arr0 (.affine t0) (.crs crs0) none r0 rfl⟩

/-- C3: the round trip array → dataset → array through `from_array` and the
    automatic `load` preserves the 3-D array (hence its shape and dtype), the
    transform and the CRS; the dataset side stores the same shape and dtype. -/
theorem C3_roundtrip (a : NpArray) (t : Affine) (c : CRS) (n : Option ℚ)
    (r : Raster) (h3 : a.shape.length = 3)
    (hok : Raster.from_array a (.affine t) (.crs c) n = .ok r) :
    r.data = some a ∧ r.transform = t ∧ r.crs = c ∧
    r.ds.data.shape = a.shape ∧ r.ds.dtype = a.dtype := by
  obtain ⟨cnt, hh, ww, hs⟩ := List.length_eq_three.mp h3
  rw [from_array_affine, if_neg (by rw [h3]; exact lt_irrefl 3)] at hok
  simp only [CrsArg.resolve] at hok
  rw [fromArrayChecked_eq a t c n cnt hh ww hs] at hok
  have hr := (Except.ok.inj hok)
  subst hr
  exact ⟨rfl, rfl, rfl, hs.symm ▸ rfl, rfl⟩

theorem C3_roundtrip_witness :
    arr0.shape.length = 3 ∧
    Raster.from_array arr0 (.affine t0) (.crs crs0) none = .ok r0 ∧
    (r0.data = some arr0 ∧ r0.transform = t0 ∧ r0.crs = crs0 ∧
     r0.ds.data.shape = arr0.shape ∧ r0.ds.dtype = arr0.dtype) :=
  ⟨rfl, rfl, C3_roundtrip arr0 t0 crs0 none r0 rfl rfl⟩

/-- C7: a 2-D array passed to `from_array` is expanded with a leading band
    axis of length 1, so the resulting dataset is single-band with the
    original row and column counts. -/
theorem C7_expand_2d (a : NpArray) (rows cols : ℕ) (t : Affine) (c : CRS)
    (n : Option ℚ) (r : Raster) (hs : a.shape = [rows, cols])
    (hok : Raster.from_array a (.affine t) (.crs c) n = .ok r) :
    r.ds.data.shape = [1, rows, cols] ∧ r.count = 1 ∧ r.ds.count = 1 ∧
    r.height = rows ∧ r.width = cols := by
  have hlt : a.shape.length < 3 := by rw [hs]; exact Nat.lt_succ_self 2
  have hexp : a.expandDims0.shape = [1, rows, cols] := by
    simp [NpArray.expandDims0, hs]
  rw [from_array_affine, if_pos hlt] at hok
  simp only [CrsArg.resolve] at hok
  rw [fromArrayChecked_eq a.expandDims0 t c n 1 rows cols hexp] at hok
  have hr := (Except.ok.inj hok)
  subst hr
  exact ⟨hexp, rfl, rfl, rfl, rfl⟩

theorem C7_expand_2d_witness :
    arr2d.shape = [2, 3] ∧
    Raster.from_array arr2d (.affine t0) (.crs crs0) none = .ok r2d ∧
    (r2d.ds.data.shape = [1, 2, 3] ∧ r2d.count = 1 ∧ r2d.ds.count = 1 ∧
     r2d.height = 2 ∧ r2d.width = 3) :=
  ⟨rfl, rfl, C7_expand_2d arr2d 2 3 t0 crs0 none r2d rfl rfl⟩

/-- C1 counterexample: the claim requires *reproject* to leave behind a
    `matches_disk` value indicating a disk mismatch.  But `reproject` never
    assigns to the receiver (it is the only one of the three operations that
    does not call `_update`); it returns a brand-new raster built by
    `from_array`, whose construction ends with `matches_disk = True` — the
    value that indicates a *match*.  Concretely for `r0`. -/
theorem C1_counterexample :
    (r0.reproject (.epsg 4326) none none none none none).map
      (fun r2 => r2.matches_disk) = .ok (some true) := by
  with_unfolding_all rfl

/-- C1 amended: `crop` and `shift` (the operations that run `_update`) clear
    `matches_disk` to `False` and swap in the new handle together with a
    re-read attribute snapshot, so the result is consistent; `reproject` does
    not mutate the receiver and instead returns a fresh `from_array`-built
    raster, which is also consistent but carries `matches_disk = True`. -/
theorem C1_amended :
    (∀ (r : Raster) (g : CropGeom) (m : String) (r2 : Raster),
        r.crop g m = .ok r2 → r2.matches_disk = some false ∧ r2.consistent) ∧
    (∀ (r : Raster) (x y : ℚ) (r2 : Raster),
        r.shift x y = .ok r2 → r2.matches_disk = some false ∧ r2.consistent) ∧
    (∀ (r : Raster) (dc : CrsArg) (sz : Option (ℕ × ℕ))
        (b : Option (ℚ × ℚ × ℚ × ℚ)) (ρ : Option DstRes) (n : Option ℚ)
        (dt : Option Dtype) (r2 : Raster),
        r.reproject dc sz b ρ n dt = .ok r2 →
        r2.matches_disk = some true ∧ r2.consistent) := by
  refine ⟨?_, ?_, ?_⟩
  · intro r g m r2 h
    obtain ⟨img, meta, hu⟩ := crop_ok_update r g m r2 h
    obtain ⟨i, _, hr2, _⟩ := update_ok r (some img) meta r2 hu
    subst hr2
    exact ⟨(applyUpdate_fields r i meta).1, (applyUpdate_fields r i meta).2.1⟩
  · intro r x y r2 h
    unfold Raster.shift at h
    obtain ⟨i, _, hr2, _⟩ := update_ok r none _ r2 h
    subst hr2
    exact ⟨(applyUpdate_fields r i _).1, (applyUpdate_fields r i _).2.1⟩
  · intro r dc sz b ρ n dt r2 h
    obtain ⟨a, t, c, hfa⟩ := reproject_ok_from_array r dc sz b ρ n dt r2 h
    obtain ⟨h1, _, h3⟩ := from_array_flags a (.affine t) (.crs c) n r2 hfa
    exact ⟨h1, h3⟩

theorem C1_amended_witness :
    (r0.crop (.coords 478010 3108090 478050 3108130) "match_pixel" = .ok cropR0 ∧
     cropR0.matches_disk = some false ∧ cropR0.consistent) ∧
    (r0.shift 5 7 = .ok shiftR0 ∧
     shiftR0.matches_disk = some false ∧ shiftR0.consistent) ∧
    (r0.reproject (.epsg 4326) none none none none none = .ok reprojR0 ∧
     reprojR0.matches_disk = some true ∧ reprojR0.consistent) := by
  have h1 : r0.crop (.coords 478010 3108090 478050 3108130) "match_pixel" =
      .ok cropR0 := by with_unfolding_all rfl
  have h2 : r0.shift 5 7 = .ok shiftR0 := by with_unfolding_all rfl
  have h3 : r0.reproject (.epsg 4326) none none none none none = .ok reprojR0 := by
    with_unfolding_all rfl
  exact ⟨⟨h1, C1_amended.1 r0 _ _ cropR0 h1⟩,
    ⟨h2, C1_amended.2.1 r0 5 7 shiftR0 h2⟩,
    ⟨h3, C1_amended.2.2 r0 _ _ _ _ _ _ reprojR0 h3⟩⟩

/-- C5 counterexample: the claim says everything except the transform
    translation terms is unchanged by `shift`, including "all other raster
    metadata" — but the bounding extent (`bounds`, a copied metadata
    attribute) necessarily moves with the translation: shifting `r0` by
    `(1, 0)` changes `bounds`. -/
theorem C5_counterexample :
    (r0.shift 1 0).map (fun r2 => r2.bounds) =
      .ok ((478001 : ℚ), (3108080 : ℚ), (478061 : ℚ), (3108140 : ℚ)) ∧
    r0.bounds = ((478000 : ℚ), (3108080 : ℚ), (478060 : ℚ), (3108140 : ℚ)) ∧
    ((478001 : ℚ), (3108080 : ℚ), (478061 : ℚ), (3108140 : ℚ)) ≠
      ((478000 : ℚ), (3108080 : ℚ), (478060 : ℚ), (3108140 : ℚ)) :=
  ⟨by with_unfolding_all rfl, by with_unfolding_all rfl, by with_unfolding_all decide⟩

/-- C5 amended: `shift` adds the offsets to the two translation terms of the
    transform and leaves the scale and shear terms, the pixel payload, and the
    metadata other than the bounding extent unchanged; the bounding extent
    translates by the same offset (and the `matches_disk` provenance flag is
    cleared, as every `_update` does). -/
theorem C5_amended (r : Raster) (x y : ℚ) (d : NpArray)
    (hd : r.data = some d)
    (hsh : d.shape = [r.ds.count, r.ds.height, r.ds.width])
    (hc : r.consistent) :
    ∃ r2 : Raster, r.shift x y = .ok r2 ∧
      r2.transform = ⟨r.transform.a, r.transform.b, r.transform.c + x,
        r.transform.d, r.transform.e, r.transform.f + y⟩ ∧
      r2.data = r.data ∧ r2.crs = r.crs ∧ r2.width = r.width ∧
      r2.height = r.height ∧ r2.count = r.count ∧ r2.nodata = r.nodata ∧
      r2.driver = r.driver ∧ r2.dtypes = r.dtypes ∧
      r2.bounds = (r.bounds.1 + x, r.bounds.2.1 + y,
        r.bounds.2.2.1 + x, r.bounds.2.2.2 + y) ∧
      r2.matches_disk = some false := by
  obtain ⟨hc1, hc2, hc3, hc4, hc5, hc6, hc7, hc8, hc9, hc10⟩ := hc
  have hupd : r.shift x y = .ok (r.applyUpdate d
      ⟨r.ds.driver, r.ds.dtype, r.ds.nodata, r.ds.width, r.ds.height, r.ds.count,
       r.ds.crs, Affine.mk r.transform.a r.transform.b (r.transform.c + x)
         r.transform.d r.transform.e (r.transform.f + y)⟩) := by
    simp only [Raster.shift, Raster.update, Raster.updateResolved, Dataset.meta]
    rw [hd]
    exact if_pos hsh
  obtain ⟨f1, f2, f3, f4, f5, f6, f7, f8, f9, f10, f11, f12, f13⟩ :=
    applyUpdate_fields r d
      ⟨r.ds.driver, r.ds.dtype, r.ds.nodata, r.ds.width, r.ds.height, r.ds.count,
       r.ds.crs, Affine.mk r.transform.a r.transform.b (r.transform.c + x)
         r.transform.d r.transform.e (r.transform.f + y)⟩
  refine ⟨_, hupd, f3, ?_, f4.trans hc4.symm, f7.trans hc8.symm,
    f6.trans hc7.symm, f5.trans hc3.symm, f8.trans hc9.symm,
    f9.trans hc5.symm, f10.trans hc6.symm, ?_, f1⟩
  · refine f13.trans ?_
    split
    · exact hd.symm
    · rfl
  · rw [f11, hc2, hc10]
    simp only [boundsOf, Dataset.bounds, Prod.mk.injEq]
    refine ⟨by ring, by ring, by ring, by ring_nf⟩

theorem C5_amended_witness :
    r0.data = some arr0 ∧
    arr0.shape = [r0.ds.count, r0.ds.height, r0.ds.width] ∧
    r0.consistent ∧
    (∃ r2 : Raster, r0.shift 5 7 = .ok r2 ∧
      r2.transform = ⟨r0.transform.a, r0.transform.b, r0.transform.c + 5,
        r0.transform.d, r0.transform.e, r0.transform.f + 7⟩ ∧
      r2.data = r0.data ∧ r2.crs = r0.crs ∧ r2.width = r0.width ∧
      r2.height = r0.height ∧ r2.count = r0.count ∧ r2.nodata = r0.nodata ∧
      r2.driver = r0.driver ∧ r2.dtypes = r0.dtypes ∧
      r2.bounds = (r0.bounds.1 + 5, r0.bounds.2.1 + 7,
        r0.bounds.2.2.1 + 5, r0.bounds.2.2.2 + 7) ∧
      r2.matches_disk = some false) :=
  ⟨rfl, rfl, ⟨rfl, rfl, rfl, rfl, rfl, rfl, rfl, rfl, rfl, rfl⟩,
    C5_amended r0 5 7 arr0 rfl rfl
      ⟨rfl, rfl, rfl, rfl, rfl, rfl, rfl, rfl, rfl, rfl⟩⟩

/-- C8: `intersection` returns the bounding-box overlap
    `(xmin, ymin, xmax, ymax)` when the overlap has nonzero area and falls
    back to the warned sentinel `0` when the overlap area is zero (disjoint
    extents, or extents touching along an edge or a corner). -/
theorem C8_intersection (r1 r2 : Raster) :
    (0 < min r1.bounds.2.2.1 r2.bounds.2.2.1 - max r1.bounds.1 r2.bounds.1 →
     0 < min r1.bounds.2.2.2 r2.bounds.2.2.2 - max r1.bounds.2.1 r2.bounds.2.1 →
     r1.intersection r2 = .extent (max r1.bounds.1 r2.bounds.1)
       (max r1.bounds.2.1 r2.bounds.2.1) (min r1.bounds.2.2.1 r2.bounds.2.2.1)
       (min r1.bounds.2.2.2 r2.bounds.2.2.2)) ∧
    ((min r1.bounds.2.2.1 r2.bounds.2.2.1 - max r1.bounds.1 r2.bounds.1 ≤ 0 ∨
      min r1.bounds.2.2.2 r2.bounds.2.2.2 - max r1.bounds.2.1 r2.bounds.2.1 ≤ 0) →
     r1.intersection r2 = .voidWarnedZero) := by
  constructor
  · intro hw hh
    simp only [Raster.intersection, bounds2poly, PolyRect.inter, PolyRect.area,
      PolyRect.envelopeBounds]
    rw [if_neg]
    exact (mul_pos (lt_of_lt_of_le hw (le_max_right 0 _))
      (lt_of_lt_of_le hh (le_max_right 0 _))).ne'
  · intro hor
    simp only [Raster.intersection, bounds2poly, PolyRect.inter, PolyRect.area,
      PolyRect.envelopeBounds]
    rw [if_pos]
    cases hor with
    | inl h => rw [max_eq_left h, zero_mul]
    | inr h => rw [max_eq_left h, mul_zero]

theorem C8_intersection_witness :
    (0 < min r0.bounds.2.2.1 r0.bounds.2.2.1 - max r0.bounds.1 r0.bounds.1) ∧
    r0.intersection r0 = .extent 478000 3108080 478060 3108140 ∧
    (min r0.bounds.2.2.1 rFar.bounds.2.2.1 - max r0.bounds.1 rFar.bounds.1 ≤ 0) ∧
    r0.intersection rFar = .voidWarnedZero := by
  have e1 : r0.bounds.1 = 478000 := by with_unfolding_all rfl
  have e2 : r0.bounds.2.1 = 3108080 := by with_unfolding_all rfl
  have e3 : r0.bounds.2.2.1 = 478060 := by with_unfolding_all rfl
  have e4 : r0.bounds.2.2.2 = 3108140 := by with_unfolding_all rfl
  have e5 : rFar.bounds.1 = 600000 := by with_unfolding_all rfl
  have e6 : rFar.bounds.2.2.1 = 600060 := by with_unfolding_all rfl
  have hpos1 : (0:ℚ) < min r0.bounds.2.2.1 r0.bounds.2.2.1 - max r0.bounds.1 r0.bounds.1 := by
    rw [min_self, max_self, e1, e3]; norm_num
  have hpos2 : (0:ℚ) < min r0.bounds.2.2.2 r0.bounds.2.2.2 - max r0.bounds.2.1 r0.bounds.2.1 := by
    rw [min_self, max_self, e2, e4]; norm_num
  have hneg : min r0.bounds.2.2.1 rFar.bounds.2.2.1 - max r0.bounds.1 rFar.bounds.1 ≤ 0 := by
    rw [e3, e6, e1, e5, min_eq_left (by norm_num), max_eq_right (by norm_num)]
    norm_num
  refine ⟨hpos1, ?_, hneg, (C8_intersection r0 rFar).2 (Or.inl hneg)⟩
  have hx := (C8_intersection r0 r0).1 hpos1 hpos2
  rw [min_self, min_self, max_self, max_self, e1, e2, e3, e4] at hx
  exact hx

/-- C9: in the default `match_pixel` mode, `crop` keeps the pixel grid of the
    dataset: the scale and shear coefficients of the new transform equal those
    of the dataset transform and the new origin is the old origin translated
    by a whole number of pixels (the snap to the covering pixel window); and
    `crop` rejects any mode other than `match_pixel` / `match_extent` with the
    assertion error. -/
theorem C9_crop_modes :
    (∀ (r : Raster) (g : CropGeom) (r2 : Raster),
        r.crop g "match_pixel" = .ok r2 →
        r2.transform.a = r.ds.transform.a ∧ r2.transform.b = r.ds.transform.b ∧
        r2.transform.d = r.ds.transform.d ∧ r2.transform.e = r.ds.transform.e ∧
        ∃ i j : ℤ,
          r2.transform.c =
            r.ds.transform.c + r.ds.transform.a * i + r.ds.transform.b * j ∧
          r2.transform.f =
            r.ds.transform.f + r.ds.transform.d * i + r.ds.transform.e * j) ∧
    (∀ (r : Raster) (g : CropGeom) (m : String),
        m ≠ "match_pixel" → m ≠ "match_extent" →
        r.crop g m =
          .error (.assertionError "mode must be one of match_pixel, match_extent")) := by
  constructor
  · intro r g r2 h
    unfold Raster.crop at h
    rw [if_pos (Or.inr rfl)] at h
    split at h
    · exact (Except.noConfusion h)
    · rw [if_pos rfl] at h
      split at h
      · exact (Except.noConfusion h)
      · rename_i cropImg tfm heq
        obtain ⟨i, hish, hr2, himg⟩ := update_ok r (some cropImg) _ r2 h
        cases himg with
        | inl hii =>
            obtain rfl : cropImg = i := Option.some.inj hii
            subst hr2
            obtain ⟨iW, jW, htfm⟩ := maskCrop_ok_transform r.ds _ _ _ _ cropImg tfm heq
            refine ⟨?_, ?_, ?_, ?_, ⟨iW, jW, ?_, ?_⟩⟩ <;>
              (rw [applyUpdate_transform]; dsimp only; rw [htfm])
        | inr hii => exact (Option.noConfusion hii.1)
  · intro r g m h1 h2
    unfold Raster.crop
    rw [if_neg (fun hOr => hOr.elim h2 h1)]

theorem C9_crop_modes_witness :
    (cropR0.transform.a = r0.ds.transform.a ∧
     cropR0.transform.b = r0.ds.transform.b ∧
     cropR0.transform.d = r0.ds.transform.d ∧
     cropR0.transform.e = r0.ds.transform.e ∧
     ∃ i j : ℤ,
       cropR0.transform.c =
         r0.ds.transform.c + r0.ds.transform.a * i + r0.ds.transform.b * j ∧
       cropR0.transform.f =
         r0.ds.transform.f + r0.ds.transform.d * i + r0.ds.transform.e * j) ∧
    r0.crop (.coords 478010 3108090 478050 3108130) "elastic" =
      .error (.assertionError "mode must be one of match_pixel, match_extent") :=
  ⟨C9_crop_modes.1 r0 (.coords 478010 3108090 478050 3108130) cropR0
     (by with_unfolding_all rfl),
   C9_crop_modes.2 r0 (.coords 478010 3108090 478050 3108130) "elastic"
     (by decide) (by decide)⟩

end GeoUtils
